import Mathlib

/-!
Shallow embedding of `src/api/pulls/create.rs`: the `CreatePullRequestBuilder`
for creating a pull request, its constructor, fluent configuration methods,
serde serialization, and the `send` dispatch to the transport delegate.
-/

/-- Minimal JSON value model; only the shapes serde emits for this struct
(strings, booleans, and null for a `None` option) are needed. -/
inductive Json where
  | str : String → Json
  | bool : Bool → Json
  | null : Json
deriving DecidableEq, Repr

/-- Embeds `super::PullRequestHandler<'octo>`: the handler context carrying
the repository owner and name (and, in the source, the client `crab`, which
is irrelevant to the claims and modelled only through the transport
parameter of `send`). -/
structure PullRequestHandler where
  owner : String
  repo : String
deriving DecidableEq, Repr

/-- Embeds `crate::models::PullRequest`, the entity returned on success.
Its internal shape is irrelevant to the claims; a pull-request number
stands in for the parsed representation. -/
structure PullRequest where
  number : Nat
deriving DecidableEq, Repr

/-- Embeds `crate::Error` as the spec describes the transport's error
taxonomy: network failures, non-2xx status with a server message, and
response-deserialization failures. -/
inductive ApiError where
  | network : String → ApiError
  | status : Nat → String → ApiError
  | deserialization : String → ApiError
deriving DecidableEq, Repr

/-- Embeds the Rust struct `CreatePullRequestBuilder<'octo, 'b>`:
`handler` is the `#[serde(skip)]` reference to the handler context;
`title`, `head`, `base` are the required `String` fields; `body`,
`draft`, `maintainer_can_modify` are the `Option` fields. -/
structure CreatePullRequestBuilder where
  handler : PullRequestHandler
  title : String
  head : String
  base : String
  body : Option String
  draft : Option Bool
  maintainer_can_modify : Option Bool
deriving DecidableEq, Repr

namespace CreatePullRequestBuilder

/-- Embeds `CreatePullRequestBuilder::new`: stores the three required
arguments (normalized to owned strings via `Into<String>` in the source)
and leaves every optional field `None`. -/
def new (handler : PullRequestHandler) (title head base : String) :
    CreatePullRequestBuilder :=
  { handler := handler
    title := title
    head := head
    base := base
    body := none
    draft := none
    maintainer_can_modify := none }

/-- Embeds the method `body` (named `setBody` here because the Lean field
projection already takes the name `body`): `self.body = body.into().map(A::into)`.
The `impl Into<Option<A>>` argument is modelled as the `Option String` it
converts into. -/
def setBody (s : CreatePullRequestBuilder) (b : Option String) :
    CreatePullRequestBuilder :=
  { s with body := b }

/-- Embeds the method `draft` (named `setDraft` here for the same reason):
`self.draft = draft.into()`. -/
def setDraft (s : CreatePullRequestBuilder) (d : Option Bool) :
    CreatePullRequestBuilder :=
  { s with draft := d }

/-- Embeds the method `maintainer_can_modify`:
`self.maintainer_can_modify = maintainer_can_modify.into()`. -/
def setMaintainerCanModify (s : CreatePullRequestBuilder) (m : Option Bool) :
    CreatePullRequestBuilder :=
  { s with maintainer_can_modify := m }

/-- Serde serialization of an `Option` field that carries no
`skip_serializing_if` attribute: `Some x` serializes as the value,
`None` serializes as JSON `null`. -/
def optField (f : α → Json) : Option α → Json
  | some x => f x
  | none => Json.null

/-- Embeds the `#[derive(serde::Serialize)]` on the struct: fields are
emitted in declaration order, `handler` is skipped by `#[serde(skip)]`,
and each `Option` field (which has no `skip_serializing_if` attribute in
the source) serializes `None` as `null`. The payload is modelled as the
ordered key/value list of the resulting JSON object. -/
def serialize (s : CreatePullRequestBuilder) : List (String × Json) :=
  [("title", Json.str s.title),
   ("head", Json.str s.head),
   ("base", Json.str s.base),
   ("body", optField Json.str s.body),
   ("draft", optField Json.bool s.draft),
   ("maintainer_can_modify", optField Json.bool s.maintainer_can_modify)]

/-- Keys of the serialized payload. -/
def serializedKeys (s : CreatePullRequestBuilder) : List String :=
  (serialize s).map Prod.fst

/-- Embeds `send`: formats the url
`/repos/{owner}/{repo}/pulls` from the handler's stored owner and repo and
delegates to the transport's `post` with the url and the serialized builder
(`Some(&self)`), returning the transport's result unchanged. The transport
delegate `self.handler.crab.post` is external to this unit and is passed
as a function. -/
def send
    (post : String → Option (List (String × Json)) → Except ApiError PullRequest)
    (s : CreatePullRequestBuilder) : Except ApiError PullRequest :=
  let url := "/repos/" ++ s.handler.owner ++ "/" ++ s.handler.repo ++ "/pulls"
  post url (some (serialize s))

/-- One configuration call on a builder: an application of `body`, `draft`
or `maintainer_can_modify` with its argument. -/
inductive ConfigCall where
  | body : Option String → ConfigCall
  | draft : Option Bool → ConfigCall
  | maintainerCanModify : Option Bool → ConfigCall
deriving DecidableEq, Repr

/-- Apply one configuration call. -/
def applyCall (s : CreatePullRequestBuilder) : ConfigCall → CreatePullRequestBuilder
  | ConfigCall.body b => setBody s b
  | ConfigCall.draft d => setDraft s d
  | ConfigCall.maintainerCanModify m => setMaintainerCanModify s m

/-- Apply a sequence of configuration calls left to right, as a caller
chains them. -/
def applyCalls (s : CreatePullRequestBuilder) (cs : List ConfigCall) :
    CreatePullRequestBuilder :=
  cs.foldl applyCall s

/-- Whether a configuration call is a call to the `body` method. -/
def ConfigCall.targetsBody : ConfigCall → Bool
  | ConfigCall.body _ => true
  | _ => false

/-- Whether a configuration call is a call to the `draft` method. -/
def ConfigCall.targetsDraft : ConfigCall → Bool
  | ConfigCall.draft _ => true
  | _ => false

/-- Whether a configuration call is a call to the `maintainer_can_modify`
method. -/
def ConfigCall.targetsMaintainerCanModify : ConfigCall → Bool
  | ConfigCall.maintainerCanModify _ => true
  | _ => false

end CreatePullRequestBuilder

namespace CreatePullRequestBuilder

lemma applyCall_title (s : CreatePullRequestBuilder) (c : ConfigCall) :
    (applyCall s c).title = s.title := by
  cases c <;> rfl

lemma applyCall_head (s : CreatePullRequestBuilder) (c : ConfigCall) :
    (applyCall s c).head = s.head := by
  cases c <;> rfl

lemma applyCall_base (s : CreatePullRequestBuilder) (c : ConfigCall) :
    (applyCall s c).base = s.base := by
  cases c <;> rfl

lemma applyCalls_title (s : CreatePullRequestBuilder) (cs : List ConfigCall) :
    (applyCalls s cs).title = s.title := by
  induction cs generalizing s with
  | nil => rfl
  | cons c cs ih =>
      show (applyCalls (applyCall s c) cs).title = s.title
      rw [ih, applyCall_title]

lemma applyCalls_head (s : CreatePullRequestBuilder) (cs : List ConfigCall) :
    (applyCalls s cs).head = s.head := by
  induction cs generalizing s with
  | nil => rfl
  | cons c cs ih =>
      show (applyCalls (applyCall s c) cs).head = s.head
      rw [ih, applyCall_head]

lemma applyCalls_base (s : CreatePullRequestBuilder) (cs : List ConfigCall) :
    (applyCalls s cs).base = s.base := by
  induction cs generalizing s with
  | nil => rfl
  | cons c cs ih =>
      show (applyCalls (applyCall s c) cs).base = s.base
      rw [ih, applyCall_base]

lemma applyCalls_body_of_never_configured (s : CreatePullRequestBuilder)
    (cs : List ConfigCall) (hcs : ∀ c ∈ cs, c.targetsBody = false) :
    (applyCalls s cs).body = s.body := by
  induction cs generalizing s with
  | nil => rfl
  | cons c cs ih =>
      show (applyCalls (applyCall s c) cs).body = s.body
      rw [ih _ fun d hd => hcs d (List.mem_cons_of_mem c hd)]
      cases c with
      | body b => exact absurd (hcs _ (List.mem_cons_self _ _)) (by simp [ConfigCall.targetsBody])
      | draft d => rfl
      | maintainerCanModify m => rfl

lemma applyCalls_draft_of_never_configured (s : CreatePullRequestBuilder)
    (cs : List ConfigCall) (hcs : ∀ c ∈ cs, c.targetsDraft = false) :
    (applyCalls s cs).draft = s.draft := by
  induction cs generalizing s with
  | nil => rfl
  | cons c cs ih =>
      show (applyCalls (applyCall s c) cs).draft = s.draft
      rw [ih _ fun d hd => hcs d (List.mem_cons_of_mem c hd)]
      cases c with
      | body b => rfl
      | draft d => exact absurd (hcs _ (List.mem_cons_self _ _)) (by simp [ConfigCall.targetsDraft])
      | maintainerCanModify m => rfl

lemma applyCalls_mcm_of_never_configured (s : CreatePullRequestBuilder)
    (cs : List ConfigCall)
    (hcs : ∀ c ∈ cs, c.targetsMaintainerCanModify = false) :
    (applyCalls s cs).maintainer_can_modify = s.maintainer_can_modify := by
  induction cs generalizing s with
  | nil => rfl
  | cons c cs ih =>
      show (applyCalls (applyCall s c) cs).maintainer_can_modify =
        s.maintainer_can_modify
      rw [ih _ fun d hd => hcs d (List.mem_cons_of_mem c hd)]
      cases c with
      | body b => rfl
      | draft d => rfl
      | maintainerCanModify m =>
          exact absurd (hcs _ (List.mem_cons_self _ _))
            (by simp [ConfigCall.targetsMaintainerCanModify])

lemma lookup_body (s : CreatePullRequestBuilder) :
    List.lookup "body" (serialize s) = some (optField Json.str s.body) := rfl

lemma lookup_draft (s : CreatePullRequestBuilder) :
    List.lookup "draft" (serialize s) = some (optField Json.bool s.draft) := rfl

lemma lookup_mcm (s : CreatePullRequestBuilder) :
    List.lookup "maintainer_can_modify" (serialize s) =
      some (optField Json.bool s.maintainer_can_modify) := rfl

lemma lookup_title (s : CreatePullRequestBuilder) :
    List.lookup "title" (serialize s) = some (Json.str s.title) := rfl

lemma lookup_head (s : CreatePullRequestBuilder) :
    List.lookup "head" (serialize s) = some (Json.str s.head) := rfl

lemma lookup_base (s : CreatePullRequestBuilder) :
    List.lookup "base" (serialize s) = some (Json.str s.base) := rfl

/-- C1 counterexample: a builder constructed with only the three required
arguments does not serialize to an object with exactly the keys
title, head, base: the `body` key is present and carries `null`, because
the serde derive has no `skip_serializing_if` on the `Option` fields. -/
theorem required_only_payload_keeps_null_optionals :
    serializedKeys (new ⟨"rust-lang", "rust"⟩ "test-pr" "master" "branch") ≠
      ["title", "head", "base"] ∧
    List.lookup "body"
      (serialize (new ⟨"rust-lang", "rust"⟩ "test-pr" "master" "branch")) =
      some Json.null := by
  exact ⟨by decide, rfl⟩

/-- C1 (amended): every optional field that was never configured — under
an arbitrary sequence of configuration calls to the other methods — is
serialized with its key present and the value `null`; and a builder with
only the three required arguments serializes to the six-key object with
title, head, base as given and body, draft, maintainer_can_modify null. -/
theorem unset_optionals_serialize_as_null
    (handler : PullRequestHandler) (t h b : String) (cs : List ConfigCall) :
    ((∀ c ∈ cs, c.targetsBody = false) →
        List.lookup "body" (serialize (applyCalls (new handler t h b) cs)) =
          some Json.null) ∧
    ((∀ c ∈ cs, c.targetsDraft = false) →
        List.lookup "draft" (serialize (applyCalls (new handler t h b) cs)) =
          some Json.null) ∧
    ((∀ c ∈ cs, c.targetsMaintainerCanModify = false) →
        List.lookup "maintainer_can_modify"
          (serialize (applyCalls (new handler t h b) cs)) =
          some Json.null) ∧
    serialize (new handler t h b) =
      [("title", Json.str t), ("head", Json.str h), ("base", Json.str b),
       ("body", Json.null), ("draft", Json.null),
       ("maintainer_can_modify", Json.null)] := by
  refine ⟨fun hcs => ?_, fun hcs => ?_, fun hcs => ?_, rfl⟩
  · rw [lookup_body, applyCalls_body_of_never_configured _ _ hcs]; rfl
  · rw [lookup_draft, applyCalls_draft_of_never_configured _ _ hcs]; rfl
  · rw [lookup_mcm, applyCalls_mcm_of_never_configured _ _ hcs]; rfl

/-- C1 (amended) witness: each never-configured field serializes as null
at a concrete builder where the other optionals were configured. -/
theorem unset_optionals_serialize_as_null_witness :
    List.lookup "body"
        (serialize (applyCalls (new ⟨"rust-lang", "rust"⟩ "test-pr" "master" "branch")
          [ConfigCall.draft (some true),
           ConfigCall.maintainerCanModify (some true)])) = some Json.null ∧
    List.lookup "draft"
        (serialize (applyCalls (new ⟨"rust-lang", "rust"⟩ "test-pr" "master" "branch")
          [ConfigCall.body (some "testing...")])) = some Json.null ∧
    List.lookup "maintainer_can_modify"
        (serialize (applyCalls (new ⟨"rust-lang", "rust"⟩ "test-pr" "master" "branch")
          [ConfigCall.body (some "testing...")])) = some Json.null :=
  ⟨(unset_optionals_serialize_as_null ⟨"rust-lang", "rust"⟩ "test-pr" "master"
      "branch" [ConfigCall.draft (some true),
        ConfigCall.maintainerCanModify (some true)]).1 (by decide),
   (unset_optionals_serialize_as_null ⟨"rust-lang", "rust"⟩ "test-pr" "master"
      "branch" [ConfigCall.body (some "testing...")]).2.1 (by decide),
   (unset_optionals_serialize_as_null ⟨"rust-lang", "rust"⟩ "test-pr" "master"
      "branch" [ConfigCall.body (some "testing...")]).2.2.1 (by decide)⟩

/-- C2: the builder constructed with ("test-pr", "master", "branch") and
configured with body "testing...", draft true, maintainer_can_modify true
serializes to exactly the six documented key/value pairs. -/
theorem scenario_all_set_serializes_exactly :
    serialize
      ((((new ⟨"rust-lang", "rust"⟩ "test-pr" "master" "branch").setBody
          (some "testing...")).setDraft (some true)).setMaintainerCanModify
        (some true)) =
      [("title", Json.str "test-pr"), ("head", Json.str "master"),
       ("base", Json.str "branch"), ("body", Json.str "testing..."),
       ("draft", Json.bool true),
       ("maintainer_can_modify", Json.bool true)] := rfl

/-- C3: any builder whose three optional fields are all set serializes to
exactly six keys, named title, head, base, body, draft and
maintainer_can_modify (snake-case), whose values are the configured ones. -/
theorem all_optionals_set_payload_six_keys
    (s : CreatePullRequestBuilder) (b : String) (d m : Bool)
    (hb : s.body = some b) (hd : s.draft = some d)
    (hm : s.maintainer_can_modify = some m) :
    serialize s =
      [("title", Json.str s.title), ("head", Json.str s.head),
       ("base", Json.str s.base), ("body", Json.str b),
       ("draft", Json.bool d), ("maintainer_can_modify", Json.bool m)] := by
  simp [serialize, hb, hd, hm, optField]

/-- C3 witness: the theorem applied to a concrete fully-configured builder. -/
theorem all_optionals_set_payload_six_keys_witness :
    serialize
      ((((new ⟨"o", "r"⟩ "t" "h" "b").setBody (some "x")).setDraft
          (some true)).setMaintainerCanModify (some false)) =
      [("title", Json.str "t"), ("head", Json.str "h"),
       ("base", Json.str "b"), ("body", Json.str "x"),
       ("draft", Json.bool true),
       ("maintainer_can_modify", Json.bool false)] :=
  all_optionals_set_payload_six_keys _ "x" true false rfl rfl rfl

/-- C4: under every sequence of configuration calls, the title, head and
base entries of the serialized payload (and the underlying fields) equal
exactly the values passed at construction. -/
theorem required_fields_immutable_under_config_calls
    (handler : PullRequestHandler) (t h b : String) (cs : List ConfigCall) :
    List.lookup "title" (serialize (applyCalls (new handler t h b) cs)) =
      some (Json.str t) ∧
    List.lookup "head" (serialize (applyCalls (new handler t h b) cs)) =
      some (Json.str h) ∧
    List.lookup "base" (serialize (applyCalls (new handler t h b) cs)) =
      some (Json.str b) ∧
    (applyCalls (new handler t h b) cs).title = t ∧
    (applyCalls (new handler t h b) cs).head = h ∧
    (applyCalls (new handler t h b) cs).base = b := by
  refine ⟨?_, ?_, ?_, ?_, ?_, ?_⟩
  · rw [lookup_title, applyCalls_title]; rfl
  · rw [lookup_head, applyCalls_head]; rfl
  · rw [lookup_base, applyCalls_base]; rfl
  · rw [applyCalls_title]; rfl
  · rw [applyCalls_head]; rfl
  · rw [applyCalls_base]; rfl

/-- C5: each configuration method overwrites the previous value: calling
it twice yields the same builder as a single call with the second value. -/
theorem config_calls_last_write_wins
    (s : CreatePullRequestBuilder) (b1 b2 : Option String)
    (d1 d2 m1 m2 : Option Bool) :
    (s.setBody b1).setBody b2 = s.setBody b2 ∧
    (s.setDraft d1).setDraft d2 = s.setDraft d2 ∧
    (s.setMaintainerCanModify m1).setMaintainerCanModify m2 =
      s.setMaintainerCanModify m2 :=
  ⟨rfl, rfl, rfl⟩

/-- C6: send builds the destination path by substituting the stored owner
and repo verbatim into the /repos/owner/repo/pulls template; in particular
for owner rust-lang and repo rust the path passed to the transport equals
/repos/rust-lang/rust/pulls. -/
theorem send_path_construction :
    (∀ (post : String → Option (List (String × Json)) →
          Except ApiError PullRequest) (s : CreatePullRequestBuilder),
        send post s =
          post ("/repos/" ++ s.handler.owner ++ "/" ++ s.handler.repo ++
            "/pulls") (some (serialize s))) ∧
    (∀ (post : String → Option (List (String × Json)) →
          Except ApiError PullRequest) (t h b : String),
        send post (new ⟨"rust-lang", "rust"⟩ t h b) =
          post "/repos/rust-lang/rust/pulls"
            (some (serialize (new ⟨"rust-lang", "rust"⟩ t h b)))) :=
  ⟨fun _ _ => rfl, fun _ _ _ _ => rfl⟩

/-- C7: each configuration method both sets and clears its field: a call
with none puts the field into the unset state whatever it held before,
and a call with a value puts the field into the set state holding it. -/
theorem config_methods_set_and_clear
    (s : CreatePullRequestBuilder) (b : String) (d m : Bool) :
    (s.setBody none).body = none ∧
    (s.setBody (some b)).body = some b ∧
    (s.setDraft none).draft = none ∧
    (s.setDraft (some d)).draft = some d ∧
    (s.setMaintainerCanModify none).maintainer_can_modify = none ∧
    (s.setMaintainerCanModify (some m)).maintainer_can_modify = some m :=
  ⟨rfl, rfl, rfl, rfl, rfl, rfl⟩

/-- C8: send is a pure pass-through above the transport boundary: whatever
result the delegate's post returns — success entity or any failure — is
returned unchanged, and send does nothing but one post call with the
builder's url and serialized payload. -/
theorem send_pass_through :
    (∀ (s : CreatePullRequestBuilder) (r : Except ApiError PullRequest),
        send (fun _ _ => r) s = r) ∧
    (∀ (post : String → Option (List (String × Json)) →
          Except ApiError PullRequest) (s : CreatePullRequestBuilder),
        ∃ url, send post s = post url (some (serialize s))) :=
  ⟨fun _ _ => rfl, fun _ _ => ⟨_, rfl⟩⟩

/-- C9: new stores the given handler, title, head and base, and leaves
body, draft and maintainer_can_modify all unset. -/
theorem new_initial_state (handler : PullRequestHandler) (t h b : String) :
    (new handler t h b).title = t ∧
    (new handler t h b).head = h ∧
    (new handler t h b).base = b ∧
    (new handler t h b).body = none ∧
    (new handler t h b).draft = none ∧
    (new handler t h b).maintainer_can_modify = none ∧
    (new handler t h b).handler = handler :=
  ⟨rfl, rfl, rfl, rfl, rfl, rfl, rfl⟩

/-- C10: the handler reference is excluded from serialization: the payload
keys are always exactly the six documented ones (hence a subset of them),
and the payload is independent of the handler, so the stored owner and
repo never flow into it. -/
theorem handler_excluded_from_serialization :
    (∀ s : CreatePullRequestBuilder,
        serializedKeys s =
          ["title", "head", "base", "body", "draft",
           "maintainer_can_modify"]) ∧
    (∀ (s : CreatePullRequestBuilder) (h2 : PullRequestHandler),
        serialize { s with handler := h2 } = serialize s) :=
  ⟨fun _ => rfl, fun _ _ => rfl⟩

end CreatePullRequestBuilder
